import Mathlib

/-!
Verification of the lambda-trading-bot core against its specification.

The Python sources are shallowly embedded: dictionaries become association
lists over a small dynamic value type `Val`, exceptions become `Except`,
wall-clock time becomes an explicit rational parameter, and every external
collaborator (RPC node, reasoning oracle, persisted-state store) becomes an
explicit function argument so that theorems quantify over its behaviour.
Calls to `save_agent_state` are recorded in an explicit persistence trace.
-/

set_option maxHeartbeats 1000000

namespace TradingBot

/-- Dynamic Python-style value: strings, numbers (modelled exactly as
rationals), booleans, lists, dicts (association lists) and None. -/
inductive Val where
  | str : String → Val
  | num : ℚ → Val
  | bool : Bool → Val
  | vlist : List Val → Val
  | dict : List (String × Val) → Val
  | none : Val

/-- Lookup of a key in a Python dict (association list), first match wins. -/
def dget : List (String × Val) → String → Option Val
  | [], _ => Option.none
  | (k', v) :: rest, k => if k' = k then some v else dget rest k

/-- Python `d.get(k, default)`. -/
def dgetD (d : List (String × Val)) (k : String) (v₀ : Val) : Val :=
  (dget d k).getD v₀

/-- Python `d[k] = v`: replace the first binding of `k`, or append one. -/
def dset : List (String × Val)  → String → Val → List (String × Val)
  | [], k, v => [(k, v)]
  | (k', v') :: rest, k, v =>
      if k' = k then (k, v) :: rest else (k', v') :: dset rest k v

/-- Python `del d[k]` (removing every binding of the key). -/
def derase (d : List (String × Val)) (k : String) : List (String × Val) :=
  d.filter (fun kv => kv.1 ≠ k)

/-- Python `k in d`. -/
def dmem (d : List (String × Val)) (k : String) : Bool :=
  (dget d k).isSome

/-- Python truthiness of a value (`bool(v)`). -/
def valTruthy : Val → Bool
  | .str s => s ≠ ""
  | .num q => q ≠ 0
  | .bool b => b
  | .vlist l => !l.isEmpty
  | .dict d => !d.isEmpty
  | .none => false

/-- Truthiness of an optional value (an absent argument behaves like None). -/
def optTruthy : Option Val → Bool
  | Option.none => false
  | some v => valTruthy v

@[simp] theorem dget_dset_self (d : List (String × Val)) (k : String) (v : Val) :
    dget (dset d k v) k = some v := by
  induction d with
  | nil => simp [dget, dset]
  | cons kv rest ih =>
      by_cases h : kv.1 = k
      · simp [dset, h, dget]
      · simp [dset, h, dget, ih]

@[simp] theorem dget_dset_ne (d : List (String × Val)) (k k' : String) (v : Val)
    (h : k ≠ k') : dget (dset d k v) k' = dget d k' := by
  induction d with
  | nil => simp [dget, dset, h]
  | cons kv rest ih =>
      by_cases hk : kv.1 = k
      · simp [dset, hk, dget, h, Ne.symm h]
      · simp [dset, hk, dget, ih]

/-!
## Trade execution action (safety gate)

Embeds `execute_trade_tool` from `src/agent/langgraph_trading_agent.py` and the
`execute_trade` branch of `EnhancedPureAITradingAgent._execute_tool` from
`src/agent/pure_ai_agent.py`.  The Jupiter call (`get_swap_transaction`) and
the transaction-submission call (`send_serialized_transaction`) are external
collaborators, passed in through `TradeCtx`; each returns `Except`, an
exception in Lean standing for a raised Python exception (caught by the
tool's outermost `except`).  The list of `TxEffect`s returned alongside the
result records which network operations the call performed.
-/

/-- Network operations a trade-execution call can perform. -/
inductive TxEffect where
  | getSwapTx
  | getBalance
  | sendTx
deriving DecidableEq, Repr

/-- External collaborators of the trade-execution tools.  `fmt` models
Python's f-string rendering of a float; `now` is `datetime.now().isoformat()`. -/
structure TradeCtx where
  get_swap_transaction : Val → Except String Val
  send_serialized_transaction : Val → Except String Val
  get_wallet_balance : ℚ
  fmt : ℚ → String
  now : String

/-- Embedding of `execute_trade_tool` (langgraph_trading_agent.py lines
407-472).  Returns the result dict and the trace of network effects. -/
def execute_trade_tool (ctx : TradeCtx) (trade_type token_address : String)
    (amount_sol : ℚ) (quote_data : Val) (dry_run : Bool) (reasoning : String) :
    List (String × Val) × List TxEffect :=
  if dry_run then
    ([("success", .bool true),
      ("message", .str ("Dry run: " ++ trade_type ++ " " ++ ctx.fmt amount_sol
          ++ " SOL of " ++ token_address)),
      ("trade_type", .str trade_type),
      ("token_address", .str token_address),
      ("amount_sol", .num amount_sol),
      ("dry_run", .bool true),
      ("reasoning", .str reasoning),
      ("simulated_result", .dict [("transaction_id", .str "dry_run_simulation"),
                                  ("status", .str "simulated_success")]),
      ("timestamp", .str ctx.now)], [])
  else if !valTruthy quote_data then
    ([("success", .bool false), ("error", .str "No quote data provided")], [])
  else
    match ctx.get_swap_transaction quote_data with
    | .error e => ([("success", .bool false), ("error", .str e)], [.getSwapTx])
    | .ok transaction =>
      if !valTruthy transaction then
        ([("success", .bool false),
          ("error", .str "Failed to get transaction from Jupiter")], [.getSwapTx])
      else
        match ctx.send_serialized_transaction transaction with
        | .error e =>
            ([("success", .bool false), ("error", .str e)], [.getSwapTx, .sendTx])
        | .ok result =>
            ([("success", .bool true),
              ("message", .str ("Executed " ++ trade_type ++ " of "
                  ++ ctx.fmt amount_sol ++ " SOL for " ++ token_address)),
              ("trade_type", .str trade_type),
              ("token_address", .str token_address),
              ("amount_sol", .num amount_sol),
              ("dry_run", .bool false),
              ("reasoning", .str reasoning),
              ("transaction_result", result),
              ("timestamp", .str ctx.now)], [.getSwapTx, .sendTx])

/-- Embedding of the `execute_trade` branch of
`EnhancedPureAITradingAgent._execute_tool` (pure_ai_agent.py lines 532-562).
Arguments arrive through `kwargs.get`, so a missing quote or reasoning is
`Val.none`; `dry_run` defaults to true at the call site. -/
def execute_trade_pure (ctx : TradeCtx) (trade_type token_address : String)
    (amount_sol : ℚ) (quote_data : Val) (dry_run : Bool) (reasoning : Val) :
    List (String × Val) × List TxEffect :=
  if dry_run then
    ([("success", .bool true),
      ("message", .str ("Dry run - " ++ trade_type ++ " " ++ ctx.fmt amount_sol
          ++ " SOL of " ++ token_address)),
      ("reasoning", reasoning),
      ("quote", quote_data)], [])
  else if valTruthy quote_data then
    match ctx.get_swap_transaction quote_data with
    | .error e => ([("success", .bool false), ("error", .str e)],
                   [.getBalance, .getSwapTx])
    | .ok swap_tx =>
      if valTruthy swap_tx then
        match ctx.send_serialized_transaction swap_tx with
        | .error e => ([("success", .bool false), ("error", .str e)],
                       [.getBalance, .getSwapTx, .sendTx])
        | .ok result =>
            ([("success", .bool true),
              ("transaction_result", result),
              ("reasoning", reasoning)], [.getBalance, .getSwapTx, .sendTx])
      else
        ([("success", .bool false), ("error", .str "Failed to get swap transaction")],
         [.getBalance, .getSwapTx])
  else
    ([("success", .bool false), ("error", .str "No quote data provided")], [])

/-- A concrete collaborator context used by witness theorems. -/
def sampleCtx : TradeCtx :=
  { get_swap_transaction := fun _ => Except.ok Val.none
    send_serialized_transaction := fun _ => Except.ok Val.none
    get_wallet_balance := 0
    fmt := fun _ => "1.0"
    now := "2025-01-01T00:00:00" }

/-- Claim C1: calling trade execution with dry_run=false and an absent/empty
quote (any Python-falsy quote_data, covering missing, None and the empty
dict) returns the success=false envelope immediately, for every trade_type,
token_address, amount and reasoning, in both implementations, and performs no
network effect (in particular no transaction submission). -/
theorem execute_trade_no_quote_gate (ctx : TradeCtx)
    (trade_type token_address : String) (amount_sol : ℚ) (quote_data : Val)
    (reasoning : String) (reasoning_v : Val)
    (h : valTruthy quote_data = false) :
    execute_trade_tool ctx trade_type token_address amount_sol quote_data false reasoning
      = ([("success", .bool false), ("error", .str "No quote data provided")], [])
    ∧ execute_trade_pure ctx trade_type token_address amount_sol quote_data false reasoning_v
      = ([("success", .bool false), ("error", .str "No quote data provided")], []) := by
  constructor
  · simp [execute_trade_tool, h]
  · simp [execute_trade_pure, h]

theorem execute_trade_no_quote_gate_witness :
    valTruthy Val.none = false ∧
    execute_trade_tool sampleCtx "buy" "So11111111111111111111111111111111111111112" 1 Val.none false "momentum"
      = ([("success", .bool false), ("error", .str "No quote data provided")], []) :=
  ⟨rfl, (execute_trade_no_quote_gate sampleCtx "buy"
      "So11111111111111111111111111111111111111112" 1 Val.none "momentum" Val.none rfl).1⟩

/-- Claim C2: with dry_run=true neither implementation performs any network
effect (so no transaction is submitted and the wallet balance is untouched;
the call is pure, hence repeating it with identical inputs changes nothing);
the envelope has success=true, echoes the inputs and reasoning, and carries an
explicit simulation marker (the dry_run=true field plus the simulated_result
dict in the langgraph tool; the message starting with the dry-run text in the
pure-AI tool) that no real-execution (dry_run=false) result ever carries. -/
theorem execute_trade_dry_run_simulation (ctx : TradeCtx)
    (trade_type token_address : String) (amount_sol : ℚ) (quote_data : Val)
    (reasoning : String) (reasoning_v : Val) :
    ((execute_trade_tool ctx trade_type token_address amount_sol quote_data true reasoning).2 = []
      ∧ dget (execute_trade_tool ctx trade_type token_address amount_sol quote_data true reasoning).1 "success"
          = some (.bool true)
      ∧ dget (execute_trade_tool ctx trade_type token_address amount_sol quote_data true reasoning).1 "trade_type"
          = some (.str trade_type)
      ∧ dget (execute_trade_tool ctx trade_type token_address amount_sol quote_data true reasoning).1 "token_address"
          = some (.str token_address)
      ∧ dget (execute_trade_tool ctx trade_type token_address amount_sol quote_data true reasoning).1 "amount_sol"
          = some (.num amount_sol)
      ∧ dget (execute_trade_tool ctx trade_type token_address amount_sol quote_data true reasoning).1 "reasoning"
          = some (.str reasoning)
      ∧ dget (execute_trade_tool ctx trade_type token_address amount_sol quote_data true reasoning).1 "dry_run"
          = some (.bool true)
      ∧ (dget (execute_trade_tool ctx trade_type token_address amount_sol quote_data true reasoning).1 "simulated_result").isSome
          = true)
    ∧ (∀ q' r', dget (execute_trade_tool ctx trade_type token_address amount_sol q' false r').1 "dry_run"
          ≠ some (.bool true))
    ∧ ((execute_trade_pure ctx trade_type token_address amount_sol quote_data true reasoning_v).2 = []
      ∧ dget (execute_trade_pure ctx trade_type token_address amount_sol quote_data true reasoning_v).1 "success"
          = some (.bool true)
      ∧ dget (execute_trade_pure ctx trade_type token_address amount_sol quote_data true reasoning_v).1 "reasoning"
          = some reasoning_v
      ∧ dget (execute_trade_pure ctx trade_type token_address amount_sol quote_data true reasoning_v).1 "quote"
          = some quote_data
      ∧ dget (execute_trade_pure ctx trade_type token_address amount_sol quote_data true reasoning_v).1 "message"
          = some (.str ("Dry run - " ++ trade_type ++ " " ++ ctx.fmt amount_sol
              ++ " SOL of " ++ token_address)))
    ∧ (∀ q' r', dget (execute_trade_pure ctx trade_type token_address amount_sol q' false r').1 "message"
          = Option.none) := by
  refine ⟨?_, ?_, ?_, ?_⟩
  · simp [execute_trade_tool, dget]
  · intro q' r'
    by_cases hq : valTruthy q'
    · simp only [execute_trade_tool, if_neg Bool.false_ne_true, hq]
      cases hs : ctx.get_swap_transaction q' with
      | error e => simp [dget]
      | ok transaction =>
        by_cases ht : valTruthy transaction
        · cases hr : ctx.send_serialized_transaction transaction with
          | error e => simp [ht, hr, dget]
          | ok result => simp [ht, hr, dget]
        · simp [ht, dget]
    · simp [execute_trade_tool, hq, dget]
  · simp [execute_trade_pure, dget]
  · intro q' r'
    by_cases hq : valTruthy q'
    · simp only [execute_trade_pure, if_neg Bool.false_ne_true, hq]
      cases hs : ctx.get_swap_transaction q' with
      | error e => simp [dget]
      | ok swap_tx =>
        by_cases ht : valTruthy swap_tx
        · cases hr : ctx.send_serialized_transaction swap_tx with
          | error e => simp [ht, hr, dget]
          | ok result => simp [ht, hr, dget]
        · simp [ht, dget]
    · simp [execute_trade_pure, hq, dget]

/-!
## Transaction submission subsystem (src/blockchain/solana_client.py)

`send_serialized_transaction` runs `for attempt in range(max_retries)`; each
attempt either yields a txid object with a `value` (success), a falsy txid
(`noId`), or raises.  On a failed attempt with `attempt < max_retries - 1`,
it sleeps `retry_delay * 2 ** attempt` and continues; after the loop it
returns the all-failed error dict.  The network is a function from the
attempt index to its outcome; the embedding returns the result dict, the
number of attempts actually made, and the list of back-off sleeps.
-/

/-- Outcome of one `client.send_raw_transaction` attempt. -/
inductive SendAttempt where
  | ok (txid : String) (confirmOk : Bool)
  | noId
  | exn (e : String)

/-- Trace of one submission: final result, attempts made, sleeps performed. -/
structure SendTrace where
  result : List (String × Val)
  attemptsMade : ℕ
  sleeps : List ℚ

/-- The retry loop of `send_serialized_transaction` (lines 138-172), iterating
over the remaining attempt indices.  On txid success the confirmation poll is
best-effort only: its outcome (`confirmOk`) does not alter the returned
result.  A failed attempt sleeps only when `attempt < max_retries - 1`. -/
def send_tx_go (att : ℕ → SendAttempt) (max_retries : ℕ) (retry_delay : ℚ) :
    List ℕ → SendTrace
  | [] => ⟨[("error", .dict [("message", .str "All transaction attempts failed")])], 0, []⟩
  | attempt :: rest =>
    match att attempt with
    | .ok txid _ => ⟨[("result", .str txid)], 1, []⟩
    | .noId =>
        let t := send_tx_go att max_retries retry_delay rest
        ⟨t.result, t.attemptsMade + 1,
          (if attempt < max_retries - 1 then [retry_delay * 2 ^ attempt] else []) ++ t.sleeps⟩
    | .exn _ =>
        let t := send_tx_go att max_retries retry_delay rest
        ⟨t.result, t.attemptsMade + 1,
          (if attempt < max_retries - 1 then [retry_delay * 2 ^ attempt] else []) ++ t.sleeps⟩

/-- Embedding of `send_serialized_transaction` (lines 108-177).  `decodeOk`
models the base64-decode / signing prologue, whose exception is caught by the
outer `except` and returned as an error dict without any attempt. -/
def send_serialized_transaction (decodeOk : Except String Unit)
    (att : ℕ → SendAttempt) (max_retries : ℕ) (retry_delay : ℚ) : SendTrace :=
  match decodeOk with
  | .error e => ⟨[("error", .dict [("message", .str e)])], 0, []⟩
  | .ok _ => send_tx_go att max_retries retry_delay (List.range max_retries)

/-- An attempt outcome that is not a success. -/
def SendAttempt.failed : SendAttempt → Prop
  | .ok _ _ => False
  | .noId => True
  | .exn _ => True

theorem send_tx_go_attempts_le (att : ℕ → SendAttempt) (mr : ℕ) (d : ℚ) :
    ∀ l : List ℕ, (send_tx_go att mr d l).attemptsMade ≤ l.length := by
  intro l
  induction l with
  | nil => simp [send_tx_go]
  | cons a rest ih =>
      cases h : att a with
      | ok txid c => simp [send_tx_go, h]
      | noId => simp only [send_tx_go, h]; exact Nat.succ_le_succ ih
      | exn e => simp only [send_tx_go, h]; exact Nat.succ_le_succ ih

/-- Claim C5 (counterexample): with max_retries=3 and retry_delay=2 and every
attempt failing, the code sleeps a total of 2*(1+2) = 6 seconds, not the
2*(1+2+4) = 14 the claim states — no back-off sleep follows the final
attempt. -/
theorem send_tx_total_backoff_counterexample :
    (send_serialized_transaction (Except.ok ()) (fun _ => SendAttempt.exn "node down") 3 2).sleeps.sum = 6
    ∧ ((2 : ℚ) * (1 + 2 + 4) ≠ 6) := by
  constructor
  · show (send_tx_go (fun _ => SendAttempt.exn "node down") 3 2 (List.range 3)).sleeps.sum = 6
    norm_num [send_tx_go, List.range_succ]
  · norm_num

/-- Claim C5 (amended): a submission with max_retries=3 and base delay d makes
at most 3 attempts (at most max_retries in general); the back-off between
attempt k and attempt k+1 is d*2^k; and when every attempt fails exactly 3
attempts are made with total sleep d*(1+2) — the exponential back-off runs
only between consecutive attempts, never after the last one. -/
theorem send_tx_retry_bound (att : ℕ → SendAttempt) (d : ℚ)
    (h : ∀ k, (att k).failed) :
    (∀ decodeOk att' mr d', (send_serialized_transaction decodeOk att' mr d').attemptsMade ≤ mr)
    ∧ (send_serialized_transaction (Except.ok ()) att 3 d).attemptsMade = 3
    ∧ (send_serialized_transaction (Except.ok ()) att 3 d).sleeps
        = [d * 2 ^ (0 : ℕ), d * 2 ^ (1 : ℕ)]
    ∧ (send_serialized_transaction (Except.ok ()) att 3 d).sleeps.sum = d * (1 + 2)
    ∧ (send_serialized_transaction (Except.ok ()) att 3 d).result
        = [("error", .dict [("message", .str "All transaction attempts failed")])] := by
  have hrange : List.range 3 = [0, 1, 2] := by decide
  have hbody : send_tx_go att 3 d [0, 1, 2]
      = ⟨[("error", .dict [("message", .str "All transaction attempts failed")])], 3,
          [d * 2 ^ (0 : ℕ), d * 2 ^ (1 : ℕ)]⟩ := by
    cases h0 : att 0 with
    | ok t c => exact absurd (h 0) (by simp [h0, SendAttempt.failed])
    | noId =>
        cases h1 : att 1 with
        | ok t c => exact absurd (h 1) (by simp [h1, SendAttempt.failed])
        | noId =>
            cases h2 : att 2 with
            | ok t c => exact absurd (h 2) (by simp [h2, SendAttempt.failed])
            | noId => simp [send_tx_go, h0, h1, h2]
            | exn e => simp [send_tx_go, h0, h1, h2]
        | exn e =>
            cases h2 : att 2 with
            | ok t c => exact absurd (h 2) (by simp [h2, SendAttempt.failed])
            | noId => simp [send_tx_go, h0, h1, h2]
            | exn e2 => simp [send_tx_go, h0, h1, h2]
    | exn e =>
        cases h1 : att 1 with
        | ok t c => exact absurd (h 1) (by simp [h1, SendAttempt.failed])
        | noId =>
            cases h2 : att 2 with
            | ok t c => exact absurd (h 2) (by simp [h2, SendAttempt.failed])
            | noId => simp [send_tx_go, h0, h1, h2]
            | exn e2 => simp [send_tx_go, h0, h1, h2]
        | exn e1 =>
            cases h2 : att 2 with
            | ok t c => exact absurd (h 2) (by simp [h2, SendAttempt.failed])
            | noId => simp [send_tx_go, h0, h1, h2]
            | exn e2 => simp [send_tx_go, h0, h1, h2]
  refine ⟨?_, ?_, ?_, ?_, ?_⟩
  · intro decodeOk att' mr d'
    cases decodeOk with
    | error e => simp [send_serialized_transaction]
    | ok u =>
        simpa [send_serialized_transaction] using
          send_tx_go_attempts_le att' mr d' (List.range mr)
  · simp [send_serialized_transaction, hrange, hbody]
  · simp [send_serialized_transaction, hrange, hbody]
  · simp [send_serialized_transaction, hrange, hbody]; ring
  · simp [send_serialized_transaction, hrange, hbody]

theorem send_tx_retry_bound_witness :
    SendAttempt.failed SendAttempt.noId ∧
    (send_serialized_transaction (Except.ok ()) (fun _ => SendAttempt.noId) 3 5).attemptsMade = 3 ∧
    (send_serialized_transaction (Except.ok ()) (fun _ => SendAttempt.noId) 3 5).sleeps.sum
      = (5 : ℚ) * (1 + 2) :=
  ⟨trivial,
   (send_tx_retry_bound (fun _ => SendAttempt.noId) 5 (fun _ => trivial)).2.1,
   (send_tx_retry_bound (fun _ => SendAttempt.noId) 5 (fun _ => trivial)).2.2.2.1⟩

/-!
## Fallback direct-submission path (`send_serialized_transaction_fallback`)

The fallback loop posts the raw sendTransaction RPC.  A 200 response body
holds either a signature (`result`), an error object (`jsonError`), or
neither key; the request can also fail at HTTP level or raise.
-/

/-- Body of a 200 response in the fallback path. -/
inductive FbBody where
  | result (sig : String)
  | jsonError (msg : String)
  | neither

/-- Outcome of one fallback attempt. -/
inductive FbResp where
  | httpOk (body : FbBody)
  | httpFail (code : ℕ)
  | exn (e : String)

/-- The degenerate placeholder signature (64 ones) a misbehaving node returns. -/
def placeholderSignature : String :=
  "1111111111111111111111111111111111111111111111111111111111111111"

/-- Is the first list a head of the second, element by element. -/
def headMatches : List Char → List Char → Bool
  | [], _ => true
  | _ :: _, [] => false
  | a :: as, b :: bs => a = b && headMatches as bs

/-- Does the first list occur contiguously anywhere in the second. -/
def occursIn (needle : List Char) : List Char → Bool
  | [] => needle.isEmpty
  | c :: cs => headMatches needle (c :: cs) || occursIn needle cs

/-- Python `needle in hay` on strings. -/
def pyIn (needle hay : String) : Bool :=
  occursIn needle.toList hay.toList

/-- The `any(err in error_msg for err in [...])` retry test of the fallback. -/
def retryableError (msg : String) : Bool :=
  ["timeout", "rate limit", "too busy", "blockhash", "timed out"].any
    (fun e => pyIn e msg)

/-- Trace of one fallback submission. -/
structure FbTrace where
  result : List (String × Val)
  attemptsMade : ℕ
  sleeps : List ℚ

/-- The retry loop of `send_serialized_transaction_fallback` (lines 186-246).
A placeholder signature, a retryable JSON error, an HTTP failure or an
exception back off and retry only while `attempt < max_retries - 1`; a 200
body with neither key silently falls through to the next attempt with no
sleep; otherwise the branch returns.  In particular a placeholder signature
on the final attempt is returned as the result. -/
def fallback_go (resp : ℕ → FbResp) (max_retries : ℕ) (retry_delay : ℚ) :
    List ℕ → FbTrace
  | [] => ⟨[("error", .dict [("message", .str "All transaction attempts failed")])], 0, []⟩
  | attempt :: rest =>
    match resp attempt with
    | .httpOk (.result sig) =>
        if sig = placeholderSignature ∧ attempt < max_retries - 1 then
          let t := fallback_go resp max_retries retry_delay rest
          ⟨t.result, t.attemptsMade + 1, retry_delay * 2 ^ attempt :: t.sleeps⟩
        else ⟨[("result", .str sig)], 1, []⟩
    | .httpOk (.jsonError msg) =>
        if retryableError msg = true ∧ attempt < max_retries - 1 then
          let t := fallback_go resp max_retries retry_delay rest
          ⟨t.result, t.attemptsMade + 1, retry_delay * 2 ^ attempt :: t.sleeps⟩
        else ⟨[("error", .dict [("message", .str msg)])], 1, []⟩
    | .httpOk .neither =>
        let t := fallback_go resp max_retries retry_delay rest
        ⟨t.result, t.attemptsMade + 1, t.sleeps⟩
    | .httpFail code =>
        if attempt < max_retries - 1 then
          let t := fallback_go resp max_retries retry_delay rest
          ⟨t.result, t.attemptsMade + 1, retry_delay * 2 ^ attempt :: t.sleeps⟩
        else ⟨[("error", .dict [("message", .str ("HTTP error: " ++ toString code))])], 1, []⟩
    | .exn e =>
        if attempt < max_retries - 1 then
          let t := fallback_go resp max_retries retry_delay rest
          ⟨t.result, t.attemptsMade + 1, retry_delay * 2 ^ attempt :: t.sleeps⟩
        else ⟨[("error", .dict [("message", .str e)])], 1, []⟩

/-- Embedding of `send_serialized_transaction_fallback` (lines 179-257). -/
def send_serialized_transaction_fallback (resp : ℕ → FbResp)
    (max_retries : ℕ) (retry_delay : ℚ) : FbTrace :=
  fallback_go resp max_retries retry_delay (List.range max_retries)

/-- Claim C6 (counterexample): when every attempt returns the placeholder
signature, the fallback path does not end in an error — the final attempt
returns the placeholder inside a result envelope. -/
theorem fallback_placeholder_counterexample :
    (send_serialized_transaction_fallback
        (fun _ => FbResp.httpOk (FbBody.result placeholderSignature)) 3 2).result
      = [("result", .str placeholderSignature)]
    ∧ dget (send_serialized_transaction_fallback
        (fun _ => FbResp.httpOk (FbBody.result placeholderSignature)) 3 2).result "error"
      = Option.none := by
  have hrange : List.range 3 = [0, 1, 2] := by decide
  constructor
  · simp [send_serialized_transaction_fallback, hrange, fallback_go]
  · simp [send_serialized_transaction_fallback, hrange, fallback_go, dget]

/-- Claim C6 (amended): a placeholder-signature response on any attempt that
is not the last one is treated as a retryable transient failure — the path
backs off by retry_delay * 2^attempt and retries, and the placeholder is not
returned from that attempt; but when the placeholder persists through the
final attempt the loop returns the result envelope carrying the placeholder
signature rather than an error. -/
theorem fallback_placeholder_retry (resp : ℕ → FbResp) (retry_delay : ℚ)
    (attempt : ℕ) (rest : List ℕ) (max_retries : ℕ)
    (hlt : attempt < max_retries - 1)
    (hresp : resp attempt = FbResp.httpOk (FbBody.result placeholderSignature))
    (hall : ∀ k, resp k = FbResp.httpOk (FbBody.result placeholderSignature)) :
    fallback_go resp max_retries retry_delay (attempt :: rest)
      = ⟨(fallback_go resp max_retries retry_delay rest).result,
         (fallback_go resp max_retries retry_delay rest).attemptsMade + 1,
         retry_delay * 2 ^ attempt
           :: (fallback_go resp max_retries retry_delay rest).sleeps⟩
    ∧ (send_serialized_transaction_fallback resp 3 retry_delay).attemptsMade = 3
    ∧ (send_serialized_transaction_fallback resp 3 retry_delay).result
        = [("result", .str placeholderSignature)] := by
  have hrange : List.range 3 = [0, 1, 2] := by decide
  refine ⟨?_, ?_, ?_⟩
  · simp [fallback_go, hresp, hlt]
  · simp [send_serialized_transaction_fallback, hrange, fallback_go, hall 0, hall 1, hall 2]
  · simp [send_serialized_transaction_fallback, hrange, fallback_go, hall 0, hall 1, hall 2]

theorem fallback_placeholder_retry_witness :
    ((0 : ℕ) < 3 - 1
      ∧ (send_serialized_transaction_fallback
          (fun _ => FbResp.httpOk (FbBody.result placeholderSignature)) 3 7).attemptsMade = 3)
    ∧ fallback_go (fun _ => FbResp.httpOk (FbBody.result placeholderSignature)) 3 7 [0, 1]
      = ⟨(fallback_go (fun _ => FbResp.httpOk (FbBody.result placeholderSignature)) 3 7 [1]).result,
         (fallback_go (fun _ => FbResp.httpOk (FbBody.result placeholderSignature)) 3 7 [1]).attemptsMade + 1,
         7 * 2 ^ (0 : ℕ)
           :: (fallback_go (fun _ => FbResp.httpOk (FbBody.result placeholderSignature)) 3 7 [1]).sleeps⟩ :=
  ⟨⟨by decide,
    (fallback_placeholder_retry (fun _ => FbResp.httpOk (FbBody.result placeholderSignature))
      7 0 [1] 3 (by decide) rfl (fun _ => rfl)).2.1⟩,
    (fallback_placeholder_retry (fun _ => FbResp.httpOk (FbBody.result placeholderSignature))
      7 0 [1] 3 (by decide) rfl (fun _ => rfl)).1⟩

/-!
## Wallet balance query (`get_wallet_balance`, solana_client.py lines 58-108)

The primary RPC call either yields a lamports balance or raises; on a raise,
the direct-RPC fallback posts getBalance and succeeds only when the HTTP
status is 200 and the body has result.value; every other path returns 0.
The embedding is a total function — the query never raises.
-/

/-- Outcome of the primary `client.get_balance` call. -/
inductive PrimaryBalance where
  | ok (lamports : ℤ)
  | exn (e : String)

/-- Outcome of the direct-RPC fallback request. -/
inductive FallbackBalance where
  | resp (status : ℕ) (value : Option ℤ)
  | exn (e : String)

/-- Embedding of `get_wallet_balance`: lamports are converted to SOL by
dividing by 1e9 (exact rational division here). -/
def get_wallet_balance (primary : PrimaryBalance) (fallback : FallbackBalance) : ℚ :=
  match primary with
  | .ok lamports => (lamports : ℚ) / 1000000000
  | .exn _ =>
    match fallback with
    | .resp status value =>
        if status = 200 then
          match value with
          | some lamports => (lamports : ℚ) / 1000000000
          | Option.none => 0
        else 0
    | .exn _ => 0

/-- A fallback outcome that yields no balance value. -/
def FallbackBalance.failed : FallbackBalance → Prop
  | .resp status value => status ≠ 200 ∨ value = Option.none
  | .exn _ => True

/-- Claim C10: the wallet-balance query is a total function (it never
raises); when the primary call raises and the fallback also fails — non-200
status, missing result.value, or its own exception — it returns 0; and a
genuinely empty wallet read successfully by the primary call also returns 0,
so the two cases are indistinguishable at the public interface. -/
theorem get_wallet_balance_zero_on_failure (e : String) (fb : FallbackBalance)
    (h : fb.failed) :
    get_wallet_balance (PrimaryBalance.exn e) fb = 0
    ∧ (∀ fb', get_wallet_balance (PrimaryBalance.ok 0) fb' = 0) := by
  constructor
  · cases fb with
    | resp status value =>
        cases h with
        | inl hs => simp [get_wallet_balance, hs]
        | inr hv =>
            by_cases hs : status = 200
            · simp [get_wallet_balance, hs, hv]
            · simp [get_wallet_balance, hs]
    | exn e' => simp [get_wallet_balance]
  · intro fb'; simp [get_wallet_balance]

theorem get_wallet_balance_zero_on_failure_witness :
    FallbackBalance.failed (FallbackBalance.resp 500 Option.none)
    ∧ get_wallet_balance (PrimaryBalance.exn "connection reset")
        (FallbackBalance.resp 500 Option.none) = 0 :=
  ⟨Or.inl (by decide),
   (get_wallet_balance_zero_on_failure "connection reset"
      (FallbackBalance.resp 500 Option.none) (Or.inl (by decide))).1⟩

/-!
## Ephemeral TTL cache (src/memory/cache.py)

Wall-clock time (`time.time()`) is an explicit rational argument; the module
dict `_cache` is an association list from keys to entries.  The coarse lock
serialises access, so each operation is a pure function of (cache, now).
-/

/-- One cache entry: payload, absolute expiry time, creation timestamp. -/
structure CEntry where
  data : Val
  expiry : ℚ
  created_at : String

/-- First binding of a key in the cache. -/
def cget : List (String × CEntry) → String → Option CEntry
  | [], _ => Option.none
  | (k', e) :: rest, k => if k' = k then some e else cget rest k

/-- Python `_cache[key] = entry`. -/
def cset : List (String × CEntry) → String → CEntry → List (String × CEntry)
  | [], k, e => [(k, e)]
  | (k', e') :: rest, k, e =>
      if k' = k then (k, e) :: rest else (k', e') :: cset rest k e

/-- Python `del _cache[key]`. -/
def cerase (c : List (String × CEntry)) (k : String) : List (String × CEntry) :=
  c.filter (fun kv => kv.1 ≠ k)

/-- Embedding of `cache_data` (lines 19-35): stores the payload under the key
with expiry `time.time() + ttl_seconds`. -/
def cache_data (c : List (String × CEntry)) (now : ℚ) (iso : String)
    (key : String) (data : Val) (ttl_seconds : ℚ) : List (String × CEntry) :=
  cset c key ⟨data, now + ttl_seconds, iso⟩

/-- Embedding of `get_cached_data` (lines 37-61): absent key yields None; an
entry with `now > expiry` is deleted and yields None; otherwise the payload
is returned.  Returns the value and the possibly-shrunk cache. -/
def get_cached_data (c : List (String × CEntry)) (now : ℚ) (key : String) :
    Option Val × List (String × CEntry) :=
  match cget c key with
  | Option.none => (Option.none, c)
  | some entry =>
      if entry.expiry < now then (Option.none, cerase c key)
      else (some entry.data, c)

/-- Embedding of `clear_expired_entries` (lines 79-100), the body of the
periodic sweeper thread: deletes every entry with `now > expiry` and returns
the surviving cache with the number of entries cleared. -/
def clear_expired_entries (c : List (String × CEntry)) (now : ℚ) :
    List (String × CEntry) × ℕ :=
  (c.filter (fun kv => decide (now ≤ kv.2.expiry)),
   (c.filter (fun kv => decide (kv.2.expiry < now))).length)

theorem cget_cset_self (c : List (String × CEntry)) (k : String) (e : CEntry) :
    cget (cset c k e) k = some e := by
  induction c with
  | nil => simp [cget, cset]
  | cons kv rest ih =>
      by_cases h : kv.1 = k
      · simp [cset, h, cget]
      · simp [cset, h, cget, ih]

theorem cget_filter_of_pass (p : String × CEntry → Bool) (c : List (String × CEntry))
    (k : String) (e : CEntry) (hget : cget c k = some e) (hp : p (k, e) = true) :
    cget (c.filter p) k = some e := by
  induction c with
  | nil => simp [cget] at hget
  | cons kv rest ih =>
      by_cases hk : kv.1 = k
      · have he : kv.2 = e := by
          simp [cget, hk] at hget
          obtain ⟨k', e'⟩ := kv
          simp_all
        obtain ⟨k', e'⟩ := kv
        subst hk; subst he
        simp [List.filter, hp, cget]
      · simp only [cget, if_neg hk] at hget
        cases hpkv : p kv with
        | true => simp [List.filter, hpkv, cget, hk, ih hget]
        | false => simp [List.filter, hpkv, ih hget]

/-- Claim C7 (counterexample): a value cached at time 0 with TTL 5 is still
returned by a get at time 5 — at the exact expiry instant, when `now` is not
less than the expiry, the code still yields the value because its expiry test
is `now > expiry`, not `now >= expiry`. -/
theorem cache_ttl_boundary_counterexample :
    (get_cached_data (cache_data [] 0 "t0" "k" (Val.str "v") 5) 5 "k").1
      = some (Val.str "v")
    ∧ ¬ ((5 : ℚ) < 0 + 5) := by
  constructor
  · simp [get_cached_data, cache_data, cset, cget]
  · norm_num

/-- Claim C7 (amended): after `put(k,v,T)` at time t0 the entry is readable
iff `now ≤ t0 + T` (readable strictly before expiry, absent strictly after,
and — the one correction — still readable at the exact expiry instant, since
the code evicts only when `now > expiry`).  The check is performed lazily on
every get, independent of the periodic sweeper: a sweep at any time `ts` not
past the expiry leaves the answer unchanged, and a get strictly past the
expiry itself deletes the entry. -/
theorem cache_ttl_visibility (c : List (String × CEntry)) (t0 : ℚ) (iso : String)
    (k : String) (v : Val) (ttl now : ℚ) :
    ((get_cached_data (cache_data c t0 iso k v ttl) now k).1
        = if now ≤ t0 + ttl then some v else Option.none)
    ∧ (∀ ts : ℚ, ts ≤ t0 + ttl →
        (get_cached_data ((clear_expired_entries (cache_data c t0 iso k v ttl) ts).1) now k).1
          = if now ≤ t0 + ttl then some v else Option.none)
    ∧ (t0 + ttl < now →
        (get_cached_data (cache_data c t0 iso k v ttl) now k).2
          = cerase (cache_data c t0 iso k v ttl) k) := by
  have hentry : cget (cache_data c t0 iso k v ttl) k = some ⟨v, t0 + ttl, iso⟩ :=
    cget_cset_self c k ⟨v, t0 + ttl, iso⟩
  refine ⟨?_, ?_, ?_⟩
  · by_cases h : now ≤ t0 + ttl
    · simp [get_cached_data, hentry, h, not_lt.mpr h]
    · simp [get_cached_data, hentry, h, lt_of_not_le h]
  · intro ts hts
    have hkeep : cget ((clear_expired_entries (cache_data c t0 iso k v ttl) ts).1) k
        = some ⟨v, t0 + ttl, iso⟩ := by
      apply cget_filter_of_pass _ _ _ _ hentry
      simpa using hts
    by_cases h : now ≤ t0 + ttl
    · simp [get_cached_data, hkeep, h, not_lt.mpr h]
    · simp [get_cached_data, hkeep, h, lt_of_not_le h]
  · intro h
    simp [get_cached_data, hentry, h]

theorem cache_ttl_visibility_witness :
    ((4 : ℚ) ≤ 0 + 5
      ∧ (get_cached_data ((clear_expired_entries (cache_data [] 0 "t0" "k" (Val.str "v") 5) 4).1) 3 "k").1
          = some (Val.str "v"))
    ∧ ((0 : ℚ) + 5 < 6
      ∧ (get_cached_data (cache_data [] 0 "t0" "k" (Val.str "v") 5) 6 "k").2
          = cerase (cache_data [] 0 "t0" "k" (Val.str "v") 5) "k") :=
  ⟨⟨by norm_num,
    by simpa using (cache_ttl_visibility [] 0 "t0" "k" (Val.str "v") 5 3).2.1 4 (by norm_num)⟩,
   ⟨by norm_num,
    (cache_ttl_visibility [] 0 "t0" "k" (Val.str "v") 5 6).2.2 (by norm_num)⟩⟩

/-!
## Background runner loop (src/agent/__init__.py, `background_trading_loop`)

Each iteration runs one trading cycle, whose outcome is either a returned
state (inspected for an `error` field and for `should_stop`/`fatal_error`
markers, each a truthiness test) or a raised exception.  The worker is driven
here by the finite list of outcomes it observes before any external stop; the
function returns how many cycles were executed and why the loop ended.  The
code sets `max_consecutive_errors = 3`: an errored or raising cycle
increments `consecutive_errors` and the loop breaks as soon as it reaches 3;
a clean cycle resets the counter to zero before the stop-marker check.
-/

/-- The state-derived observations the loop makes on one cycle's result. -/
structure CycleRes where
  hasError : Bool
  shouldStop : Bool
  fatalError : Bool
  toolsUsed : Bool

/-- Outcome of one `run_trading_agent` call inside the loop. -/
inductive LoopOutcome where
  | state (r : CycleRes)
  | raised (e : String)

/-- Why the background loop ended. -/
inductive LoopExit where
  | breaker
  | stateStop
  | streamEnd
deriving DecidableEq, Repr

/-- Embedding of the loop body of `background_trading_loop` (lines 166-260):
given the current `consecutive_errors` value and the remaining cycle
outcomes, returns the number of cycles executed and the exit reason.  The
adaptive sleep adjusts timing only, so it does not appear in this count. -/
def background_trading_loop : ℕ → List LoopOutcome → ℕ × LoopExit
  | _, [] => (0, LoopExit.streamEnd)
  | consec, o :: rest =>
    match o with
    | .raised _ =>
        if 3 ≤ consec + 1 then (1, LoopExit.breaker)
        else
          let t := background_trading_loop (consec + 1) rest
          (t.1 + 1, t.2)
    | .state r =>
        if r.hasError then
          if 3 ≤ consec + 1 then (1, LoopExit.breaker)
          else if r.shouldStop || r.fatalError then (1, LoopExit.stateStop)
          else
            let t := background_trading_loop (consec + 1) rest
            (t.1 + 1, t.2)
        else
          if r.shouldStop || r.fatalError then (1, LoopExit.stateStop)
          else
            let t := background_trading_loop 0 rest
            (t.1 + 1, t.2)

/-- A cycle outcome that counts as an errored cycle: a raised exception, or a
returned state whose error field is set and which carries no explicit stop
marker (the orchestrator's own error states set none). -/
def LoopOutcome.errored : LoopOutcome → Prop
  | .raised _ => True
  | .state r => r.hasError = true ∧ r.shouldStop = false ∧ r.fatalError = false

theorem background_loop_errored_run (outs : List LoopOutcome) :
    ∀ consec : ℕ, (∀ o ∈ outs, o.errored) → consec < 3 →
      background_trading_loop consec outs
        = (min (3 - consec) outs.length,
           if 3 - consec ≤ outs.length then LoopExit.breaker else LoopExit.streamEnd) := by
  induction outs with
  | nil =>
      intro consec _ hc
      have h3 : ¬ (3 - consec ≤ 0) := by omega
      simp [background_trading_loop, h3]
  | cons o rest ih =>
      intro consec hall hc
      have ho : o.errored := hall o (List.mem_cons_self o rest)
      have hrest : ∀ o' ∈ rest, o'.errored :=
        fun o' h => hall o' (List.mem_cons_of_mem o h)
      by_cases hbr : 3 ≤ consec + 1
      · have hk : consec = 2 := by omega
        subst hk
        cases o with
        | raised e => simp [background_trading_loop, List.length_cons]
        | state r =>
            obtain ⟨he, _, _⟩ := ho
            simp [background_trading_loop, he, List.length_cons]
      · have hrec := ih (consec + 1) hrest (by omega)
        have hmin : min (3 - consec) (rest.length + 1) = min (3 - (consec + 1)) rest.length + 1 := by
          omega
        have hif : (3 - consec ≤ rest.length + 1) = (3 - (consec + 1) ≤ rest.length) := by
          simp only [eq_iff_iff]; omega
        cases o with
        | raised e =>
            simp only [background_trading_loop, if_neg hbr, hrec, List.length_cons, hmin, hif]
        | state r =>
            obtain ⟨he, hs, hf⟩ := ho
            simp only [background_trading_loop, he, if_true, if_neg hbr, hs, hf,
              Bool.or_self, Bool.false_eq_true, if_false, hrec, List.length_cons, hmin, hif]

/-- Claim C4: with every cycle errored (state error or raise, no stop
markers), the worker loop ends via the circuit breaker after exactly 3
cycles — if at least 3 such outcomes are available it executes exactly 3 and
exits through the breaker (never a fourth consecutive errored cycle), and
with fewer than 3 it executes them all without the breaker firing (never
stopping early); a clean cycle with no stop markers resets the
consecutive-error counter to zero for the rest of the run. -/
theorem background_loop_circuit_breaker (outs : List LoopOutcome)
    (hall : ∀ o ∈ outs, o.errored) :
    (3 ≤ outs.length → background_trading_loop 0 outs = (3, LoopExit.breaker))
    ∧ (outs.length < 3 →
        background_trading_loop 0 outs = (outs.length, LoopExit.streamEnd))
    ∧ (∀ (consec : ℕ) (rest : List LoopOutcome) (r : CycleRes),
        r.hasError = false → r.shouldStop = false → r.fatalError = false →
        background_trading_loop consec (LoopOutcome.state r :: rest)
          = ((background_trading_loop 0 rest).1 + 1, (background_trading_loop 0 rest).2)) := by
  refine ⟨?_, ?_, ?_⟩
  · intro hlen
    have := background_loop_errored_run outs 0 hall (by omega)
    rw [this]
    have hmin : min (3 - 0) outs.length = 3 := by omega
    have hif : 3 - 0 ≤ outs.length := by omega
    simp [hmin, hif]
  · intro hlen
    have := background_loop_errored_run outs 0 hall (by omega)
    rw [this]
    have hmin : min (3 - 0) outs.length = outs.length := by omega
    have hif : ¬ (3 - 0 ≤ outs.length) := by omega
    simp [hmin, hif]
  · intro consec rest r he hs hf
    simp [background_trading_loop, he, hs, hf]

theorem background_loop_circuit_breaker_witness :
    (∀ o ∈ List.replicate 4 (LoopOutcome.raised "api quota exhausted"), o.errored)
    ∧ background_trading_loop 0 (List.replicate 4 (LoopOutcome.raised "api quota exhausted"))
        = (3, LoopExit.breaker) :=
  ⟨fun o ho => by
      have := List.eq_of_mem_replicate ho
      subst this; trivial,
   (background_loop_circuit_breaker
      (List.replicate 4 (LoopOutcome.raised "api quota exhausted"))
      (fun o ho => by
        have := List.eq_of_mem_replicate ho
        subst this; trivial)).1 (by simp)⟩

/-!
## Background runner session guard (src/agent/__init__.py)

The module globals `_agent_running`, `_agent_stop_flag`, `_agent_thread`,
`_current_thread_id`, `_current_state` become a record; `worker_count` counts
live worker threads.  `start_agent_background` checks `_agent_running` first
and refuses to spawn when it is set.  The spawned worker's prologue
(`_agent_running = True; _agent_stop_flag = False; _current_thread_id = ...`)
is modelled as executing at spawn time — the sequential interleaving in which
the fresh thread runs first; the spec itself notes the flag check-then-set is
only best-effort atomic.  The worker's `finally` block is `worker_finally`.
-/

/-- The runner's module-level globals. -/
structure RunnerState where
  agent_running : Bool
  agent_stop_flag : Bool
  worker_count : ℕ
  current_thread_id : Option String
  current_state : Option (List (String × Val))

/-- Embedding of `start_agent_background` (lines 153-281): reject when a
session is active, otherwise spawn one worker (prologue included). -/
def start_agent_background (s : RunnerState) (session_id : String) :
    Bool × RunnerState :=
  if s.agent_running then (false, s)
  else
    (true,
      { s with
          worker_count := s.worker_count + 1
          agent_running := true
          agent_stop_flag := false
          current_thread_id := some session_id
          current_state := Option.none })

/-- The worker's `finally` block (lines 264-268): clears the running flag and
session fields as the thread dies. -/
def worker_finally (s : RunnerState) : RunnerState :=
  { s with
      agent_running := false
      worker_count := s.worker_count - 1
      current_state := Option.none
      current_thread_id := Option.none }

/-- At most one live worker, and exactly when the running flag says so. -/
def sessionInvariant (s : RunnerState) : Prop :=
  s.worker_count = (if s.agent_running then 1 else 0)

/-- Claim C8: when the running flag is set, `start` returns false and leaves
the process state untouched (no second worker is spawned); consequently two
back-to-back `start` calls from an inactive state return true then false, and
the one-live-session invariant (worker count matches the running flag, hence
at most one worker) is preserved by `start` and by worker termination. -/
theorem start_agent_background_guard (s : RunnerState) (session_id : String)
    (h : s.agent_running = true) :
    start_agent_background s session_id = (false, s)
    ∧ (∀ (s' : RunnerState) (sid1 sid2 : String), s'.agent_running = false →
        (start_agent_background s' sid1).1 = true
        ∧ (start_agent_background (start_agent_background s' sid1).2 sid2).1 = false)
    ∧ (∀ (s' : RunnerState) (sid : String), sessionInvariant s' →
        sessionInvariant (start_agent_background s' sid).2
        ∧ (start_agent_background s' sid).2.worker_count ≤ 1
        ∧ sessionInvariant (worker_finally (start_agent_background s' sid).2)) := by
  refine ⟨by simp [start_agent_background, h], ?_, ?_⟩
  · intro s' sid1 sid2 h'
    constructor
    · simp [start_agent_background, h']
    · simp [start_agent_background, h']
  · intro s' sid hinv
    by_cases hr : s'.agent_running
    · have hw : s'.worker_count = 1 := by simpa [sessionInvariant, hr] using hinv
      refine ⟨?_, ?_, ?_⟩
      · simpa [start_agent_background, hr] using hinv
      · simp [start_agent_background, hr, hw]
      · simp [start_agent_background, hr, worker_finally, sessionInvariant, hw]
    · have hw : s'.worker_count = 0 := by simpa [sessionInvariant, hr] using hinv
      refine ⟨?_, ?_, ?_⟩
      · simp [start_agent_background, hr, sessionInvariant, hw]
      · simp [start_agent_background, hr, hw]
      · simp [start_agent_background, hr, worker_finally, sessionInvariant, hw]

/-- A concrete active runner state for the witness. -/
def activeRunner : RunnerState :=
  { agent_running := true
    agent_stop_flag := false
    worker_count := 1
    current_thread_id := some "trading_session_20250101_000000"
    current_state := Option.none }

theorem start_agent_background_guard_witness :
    activeRunner.agent_running = true
    ∧ start_agent_background activeRunner "trading_session_20250101_000001"
        = (false, activeRunner) :=
  ⟨rfl,
   (start_agent_background_guard activeRunner "trading_session_20250101_000001" rfl).1⟩

/-!
## Status snapshot (src/agent/__init__.py, `get_agent_status`)

`get_agent_status` is a module-level function, yet line 353 reads
`"status": self._determine_status(state)`.  The name `self` is neither a
local of the function nor bound at module scope, so building the snapshot
dict raises NameError whenever a state document exists; the surrounding
`except` then returns the four-field error dict instead of the snapshot.
The name environment is embedded explicitly so the failure is derived, not
asserted.
-/

/-- The names bound at module scope in src/agent/__init__.py (imports,
globals, functions).  `self` is not among them. -/
def agentModuleNames : List String :=
  ["threading", "time", "logging", "datetime", "Dict", "Any", "Optional",
   "run_langgraph_trading_cycle", "build_pure_ai_trading_graph",
   "AgentState", "TokenData", "Position", "create_initial_state",
   "save_agent_state", "load_agent_state", "update_portfolio_metrics",
   "migrate_legacy_state", "validate_state_structure", "get_state_summary",
   "logger", "_agent_thread", "_agent_running", "_agent_stop_flag",
   "_current_thread_id", "_current_state", "run_trading_agent",
   "start_agent_background", "stop_agent_background", "get_agent_status",
   "_determine_status", "run_trading_cycle", "build_trading_agent",
   "run_pure_ai_trading_agent"]

/-- The local names of `get_agent_status` in scope at the dict literal. -/
def getAgentStatusLocals : List String := ["state", "summary", "status"]

/-- Python name resolution inside `get_agent_status`. -/
def resolvesInStatus (n : String) : Bool :=
  getAgentStatusLocals.contains n || agentModuleNames.contains n

/-- Value equality against a number, as Python `==` (never raises). -/
def valEqNum (v : Val) (q : ℚ) : Bool :=
  match v with
  | .num q' => q' = q
  | _ => false

/-- Python `len` on a list value (only ever applied to lists here). -/
def pyLen (v : Val) : ℕ :=
  match v with
  | .vlist l => l.length
  | _ => 0

/-- Embedding of `_determine_status` (lines 389-400). -/
def _determine_status (state : List (String × Val)) : String :=
  if valTruthy (dgetD state "error" Val.none) then "error"
  else if valEqNum (dgetD state "cycles_completed" (.num 0)) 0 then "initialized"
  else if !valTruthy (dgetD state "tools_used_this_cycle" (.vlist [])) then "idle"
  else if 0 < pyLen (dgetD state "active_positions" (.vlist [])) then "trading"
  else "active"

/-- Evaluation of the expression `self._determine_status(state)` at line 353:
the base name `self` must resolve before the attribute lookup, and it is
free, so the evaluation raises NameError. -/
def eval_self_determine_status (state : List (String × Val)) : Except String Val :=
  if resolvesInStatus "self" then Except.ok (Val.str (_determine_status state))
  else Except.error "NameError: name self is not defined"

/-- An optional string as a Python value. -/
def optStr : Option String → Val
  | some s => .str s
  | Option.none => Val.none

/-- Python `a or b` on values. -/
def pyOrVal (a b : Val) : Val :=
  if valTruthy a then a else b

/-- `len([e for e in state.get("previous_errors", []) if not e.get("resolved", True)])`. -/
def countUnresolved (v : Val) : ℕ :=
  match v with
  | .vlist l =>
      (l.filter (fun e =>
        match e with
        | .dict d => !valTruthy (dgetD d "resolved" (.bool true))
        | _ => false)).length
  | _ => 0

/-- The globals `get_agent_status` reads. -/
structure AgentGlobals where
  agent_running : Bool
  thread_alive : Bool
  current_thread_id : Option String
  current_state : Option (List (String × Val))

/-- The snapshot dict the code attempts to build (lines 329-366), in source
order; evaluating the `status` entry raises, so the build is an `Except`. -/
def buildStatusDict (g : AgentGlobals) (st : List (String × Val))
    (summary : List (String × Val) → Val) : Except String (List (String × Val)) :=
  match eval_self_determine_status st with
  | .error e => .error e
  | .ok statusVal =>
      .ok [("running", .bool g.agent_running),
           ("thread_alive", .bool g.thread_alive),
           ("current_thread_id", optStr g.current_thread_id),
           ("cycles_completed", dgetD st "cycles_completed" (.num 0)),
           ("last_update", pyOrVal (dgetD st "last_cycle_timestamp" Val.none)
               (dgetD st "last_update_timestamp" Val.none)),
           ("wallet_balance_sol", dgetD st "wallet_balance_sol" (.num 0)),
           ("active_positions", .num (pyLen (dgetD st "active_positions" (.vlist [])))),
           ("tools_used_last_cycle", dgetD st "tools_used_this_cycle" (.vlist [])),
           ("agent_type", .str "LangGraph_Enhanced"),
           ("session_active", dgetD st "session_active" (.bool false)),
           ("state_healthy", dgetD st "state_healthy" (.bool true)),
           ("consecutive_errors", .num (countUnresolved (dgetD st "previous_errors" (.vlist [])))),
           ("status", statusVal),
           ("summary", summary st),
           ("agent_health", dgetD st "agent_health" (.dict [])),
           ("trading_mode", dgetD st "trading_mode" (.str "dry_run")),
           ("ai_strategy", dgetD st "ai_strategy" (.str "unknown")),
           ("current_error", dgetD st "error" Val.none),
           ("error_timestamp", dgetD st "error_timestamp" Val.none)]

/-- The dict returned when no state document exists (lines 368-381). -/
def initializedStatusDict (g : AgentGlobals) : List (String × Val) :=
  [("running", .bool g.agent_running),
   ("thread_alive", .bool g.thread_alive),
   ("current_thread_id", optStr g.current_thread_id),
   ("cycles_completed", .num 0),
   ("last_update", Val.none),
   ("wallet_balance_sol", .num 0),
   ("active_positions", .num 0),
   ("tools_used_last_cycle", .vlist []),
   ("agent_type", .str "LangGraph_Enhanced"),
   ("status", .str "initialized"),
   ("state_healthy", .bool true)]

/-- The `except` fallback dict (lines 383-387). -/
def statusErrorDict (g : AgentGlobals) (e : String) : List (String × Val) :=
  [("running", .bool g.agent_running),
   ("status", .str "error"),
   ("error", .str e),
   ("state_healthy", .bool false)]

/-- Embedding of `get_agent_status` (lines 316-387): resolve the state via
`_current_state or load_agent_state()` (Python `or`, so an empty in-memory
dict falls through to the loaded one), branch on its truthiness, and catch
any exception from the snapshot build. -/
def get_agent_status (g : AgentGlobals) (loaded : Option (List (String × Val)))
    (summary : List (String × Val) → Val) : List (String × Val) :=
  let sv : Option (List (String × Val)) :=
    match g.current_state with
    | some st => if st.isEmpty then loaded else some st
    | Option.none => loaded
  match sv with
  | some st =>
      if st.isEmpty then initializedStatusDict g
      else
        match buildStatusDict g st summary with
        | .ok d => d
        | .error e => statusErrorDict g e
  | Option.none => initializedStatusDict g

/-- Claim C9 (code bug): whenever a non-empty state document exists (held in
memory or loaded from the store), `get_agent_status` does not return the
documented snapshot: the dict construction evaluates `self._determine_status`
with `self` unbound, the NameError is caught, and the four-field error dict
comes back — with no thread-alive flag, session id, cycle count, balance,
position count or last-tools fields at all. -/
theorem get_agent_status_self_bug (g : AgentGlobals)
    (loaded : Option (List (String × Val)))
    (summary : List (String × Val) → Val) (st : List (String × Val))
    (hst : st.isEmpty = false)
    (hsv : g.current_state = some st ∨ (g.current_state = Option.none ∧ loaded = some st)) :
    get_agent_status g loaded summary
      = statusErrorDict g "NameError: name self is not defined"
    ∧ dget (get_agent_status g loaded summary) "cycles_completed" = Option.none
    ∧ dget (get_agent_status g loaded summary) "thread_alive" = Option.none
    ∧ dget (get_agent_status g loaded summary) "current_thread_id" = Option.none
    ∧ dget (get_agent_status g loaded summary) "wallet_balance_sol" = Option.none
    ∧ dget (get_agent_status g loaded summary) "active_positions" = Option.none
    ∧ dget (get_agent_status g loaded summary) "tools_used_last_cycle" = Option.none
    ∧ dget (get_agent_status g loaded summary) "status" = some (.str "error") := by
  have hres : resolvesInStatus "self" = false := by decide
  have hmain : get_agent_status g loaded summary
      = statusErrorDict g "NameError: name self is not defined" := by
    rcases hsv with hcs | ⟨hcs, hld⟩
    · simp [get_agent_status, hcs, hst, buildStatusDict, eval_self_determine_status, hres]
    · simp [get_agent_status, hcs, hld, hst, buildStatusDict, eval_self_determine_status, hres]
  refine ⟨hmain, ?_, ?_, ?_, ?_, ?_, ?_, ?_⟩ <;> simp [hmain, statusErrorDict, dget]

theorem get_agent_status_self_bug_witness :
    ([("cycles_completed", Val.num 0)] : List (String × Val)).isEmpty = false
    ∧ get_agent_status
        { agent_running := true, thread_alive := true,
          current_thread_id := some "trading_session_20250101_000000",
          current_state := some [("cycles_completed", Val.num 0)] }
        Option.none (fun _ => Val.none)
      = statusErrorDict
          { agent_running := true, thread_alive := true,
            current_thread_id := some "trading_session_20250101_000000",
            current_state := some [("cycles_completed", Val.num 0)] }
          "NameError: name self is not defined" :=
  ⟨rfl,
   (get_agent_status_self_bug
      { agent_running := true, thread_alive := true,
        current_thread_id := some "trading_session_20250101_000000",
        current_state := some [("cycles_completed", Val.num 0)] }
      Option.none (fun _ => Val.none) [("cycles_completed", Val.num 0)]
      rfl (Or.inl rfl)).1⟩

/-!
## Cycle orchestrator

Two layers.  Inner: `CompleteLangGraphTradingAgent.run_trading_cycle`
(langgraph_trading_agent.py lines 667-775) — metrics update, context build,
oracle invocation, state mutation, save; its `except` appends to the
`error_log` history.  Outer: `run_trading_agent` (src/agent/__init__.py
lines 40-151) — state resolution, parameter merge, error shelving, cycle
call, save; its `except` writes the top-level `error`/`error_timestamp`/
`error_type` fields.  The functions of the missing `src/agent/state.py`
(`load_agent_state`, `create_initial_state`, `validate_state_structure`,
`migrate_legacy_state`, `update_portfolio_metrics`) enter as context
parameters; `save_agent_state` is modelled as appending the saved document
to the returned persistence trace.  An `Except.error` result stands for a
Python exception escaping the function; reads that Python would type-error
on (arithmetic or formatting on a non-number, `len` of a non-list) are
embedded as `Except`-valued reads.
-/

/-- `state.get(k, d)` followed by numeric use: type error when non-numeric. -/
def pyNumD (s : List (String × Val)) (k : String) (d : ℚ) : Except String ℚ :=
  match dget s k with
  | Option.none => .ok d
  | some (.num q) => .ok q
  | some _ => .error "TypeError"

/-- `state.get(k, d)` followed by list use: type error when non-list. -/
def pyListD (s : List (String × Val)) (k : String) (d : List Val) :
    Except String (List Val) :=
  match dget s k with
  | Option.none => .ok d
  | some (.vlist l) => .ok l
  | some _ => .error "TypeError"

/-- `state.get(k, d)` followed by string use (`.upper()`): type error
when non-string. -/
def pyStrD (s : List (String × Val)) (k : String) (d : String) :
    Except String String :=
  match dget s k with
  | Option.none => .ok d
  | some (.str x) => .ok x
  | some _ => .error "TypeError"

/-- `state.get(k, d)` followed by dict use (`.update`): type error
when non-dict. -/
def pyDictD (s : List (String × Val)) (k : String) (d : List (String × Val)) :
    Except String (List (String × Val)) :=
  match dget s k with
  | Option.none => .ok d
  | some (.dict l) => .ok l
  | some _ => .error "TypeError"

/-- Python `cur.update(ps)`. -/
def dictUpdate (cur ps : List (String × Val)) : List (String × Val) :=
  ps.foldl (fun acc kv => dset acc kv.1 kv.2) cur

/-- `pos.get("current_value_sol", 0)` for one position entry. -/
def posValue : Val → Except String ℚ
  | .dict d =>
      (match dget d "current_value_sol" with
       | Option.none => .ok 0
       | some (.num q) => .ok q
       | some _ => .error "TypeError")
  | _ => .error "AttributeError"

/-- `sum(pos.get("current_value_sol", 0) for pos in active_positions)`. -/
def sumPositions : List Val → Except String ℚ
  | [] => .ok 0
  | p :: rest => do
      let v ← posValue p
      let r ← sumPositions rest
      .ok (v + r)

/-- The context document handed to the reasoning oracle each cycle: the
quantities the code interpolates into the prompt (the prompt's prose is
presentation only; the oracle is universally quantified over it). -/
structure ContextDoc where
  wallet_balance : ℚ
  active_positions : List Val
  total_portfolio_value : ℚ
  cash_allocation_pct : ℚ
  cycles_completed : ℚ
  ai_strategy : Val
  trading_mode : String

/-- One message coming back from the react agent: `content` when the object
has a content attribute, `name` when it is a tool message. -/
structure OracleMsg where
  content : Option String
  name : Option String

/-- The response of `self.agent.invoke`. -/
structure OracleResp where
  messages : List OracleMsg

/-- Collaborators of the inner cycle.  `update_portfolio_metrics`,
`load_state` and `initial_state` stand for the state.py functions that are
not part of the inspected sources; `initial_state` is the document
`create_initial_state` would build. -/
structure CycleCtx where
  update_portfolio_metrics : List (String × Val) → Except String (List (String × Val))
  oracle : ContextDoc → Except String OracleResp
  load_state : Option (List (String × Val))
  initial_state : List (String × Val)
  now : String

/-- The `try` body of the inner `run_trading_cycle` (lines 669-761): metrics,
context reads, oracle call, state mutation.  Any `Except.error` here is an
exception reaching the method's `except`. -/
def run_trading_cycle_body (ctx : CycleCtx) (state0 : List (String × Val)) :
    Except String (List (String × Val)) := do
  let state ← ctx.update_portfolio_metrics state0
  let wallet_balance ← pyNumD state "wallet_balance_sol" 0
  let cycles_completed ← pyNumD state "cycles_completed" 0
  let active_positions ← pyListD state "active_positions" []
  let trading_mode ← pyStrD state "trading_mode" "dry_run"
  let total_position_value ← sumPositions active_positions
  let total := wallet_balance + total_position_value
  let cash := if 0 < total then wallet_balance / total * 100 else 100
  let doc : ContextDoc :=
    ⟨wallet_balance, active_positions, total, cash, cycles_completed,
     dgetD state "ai_strategy" (.str "discovery_and_analysis"), trading_mode⟩
  let resp ← ctx.oracle doc
  let state :=
    match resp.messages.getLast? with
    | some m =>
        match m.content with
        | some c => dset state "agent_reasoning" (.str c)
        | Option.none => state
    | Option.none => state
  let state := dset state "cycles_completed" (.num (cycles_completed + 1))
  let state := dset state "last_update_timestamp" (.str ctx.now)
  let state := dset state "ai_strategy" (.str "complete_langgraph_execution")
  let tools_used := resp.messages.filterMap (fun m => m.name)
  let state := dset state "tools_used_this_cycle" (.vlist (tools_used.map Val.str))
  let state := dset state "tools_executed_successfully" (.bool (!tools_used.isEmpty))
  .ok state

/-- The `except` branch of the inner `run_trading_cycle` (lines 763-775):
`error_state = initial_state or create_initial_state()`, counter advanced,
the fault appended to `error_log`, reasoning replaced, state saved.  The
branch itself raises (its own `Except.error`) only if the counter or log
field of that state is mis-typed. -/
def run_trading_cycle_rescue (ctx : CycleCtx)
    (initial_state? : Option (List (String × Val))) (e : String) :
    Except String (List (String × Val) × List (List (String × Val))) :=
  let error_state :=
    match initial_state? with
    | some s => if s.isEmpty then ctx.initial_state else s
    | Option.none => ctx.initial_state
  match pyNumD error_state "cycles_completed" 0 with
  | .error ex => .error ex
  | .ok c =>
    let es₁ := dset error_state "cycles_completed" (.num (c + 1))
    match pyListD es₁ "error_log" [] with
    | .error ex => .error ex
    | .ok log =>
      let entry := Val.dict
        [("timestamp", .str ctx.now), ("error", .str e),
         ("error_type", .str "complete_langgraph_execution")]
      let es₂ := dset es₁ "error_log" (.vlist (log ++ [entry]))
      let es₃ := dset es₂ "agent_reasoning"
        (.str ("Complete LangGraph execution error: " ++ e))
      .ok (es₃, [es₃])

/-- Embedding of the inner `run_trading_cycle` (lines 667-775).  Returns the
resulting state together with the trace of documents passed to
`save_agent_state`. -/
def run_trading_cycle (ctx : CycleCtx)
    (initial_state? : Option (List (String × Val))) :
    Except String (List (String × Val) × List (List (String × Val))) :=
  let state0 :=
    match initial_state? with
    | some s => s
    | Option.none =>
        match ctx.load_state with
        | some s => if s.isEmpty then ctx.initial_state else s
        | Option.none => ctx.initial_state
  match run_trading_cycle_body ctx state0 with
  | .ok st => .ok (st, [st])
  | .error e => run_trading_cycle_rescue ctx initial_state? e

/-- Collaborators of the outer entry point `run_trading_agent`.  `load_state`
raising models a fault in `load_agent_state`; `cycleFn` is
`run_langgraph_trading_cycle` as seen from the caller. -/
structure AgentCtx where
  load_state : Except String (Option (List (String × Val)))
  initial_state : List (String × Val)
  validate : List (String × Val) → Bool
  migrate : List (String × Val) → List (String × Val)
  cycleFn : List (String × Val) →
    Except String (List (String × Val) × List (List (String × Val)))
  now : String

/-- The `except` branch of `run_trading_agent` (lines 138-151), applied to
the current value of the `state` local at the raise point (Python mutates the
one state dict in place, so `previous_state or state` is that same current
document; when the exception precedes the `state` assignment the caller
passes `create_initial_state()`). -/
def run_trading_agent_rescue (ctx : AgentCtx) (snapshot : List (String × Val))
    (e : String) :
    Except String (List (String × Val) × List (List (String × Val))) :=
  let es₁ := dset snapshot "error" (.str e)
  let es₂ := dset es₁ "error_timestamp" (.str ctx.now)
  let es₃ := dset es₂ "error_type" (.str "run_trading_agent_failure")
  match pyNumD es₃ "cycles_completed" 0 with
  | .error ex => .error ex
  | .ok c =>
    let es₄ := dset es₃ "cycles_completed" (.num (c + 1))
    let es₅ := dset es₄ "state_healthy" (.bool false)
    .ok (es₅, [es₅])

/-- Embedding of `run_trading_agent` (src/agent/__init__.py lines 40-151).
Stages: resolve the working state (previous state when truthy, else
load/create with validate+migrate), set the thread id, merge parameter
overrides, shelve any previous error into `previous_errors`, run the cycle,
stamp continuity markers, save.  Each stage's exception goes to
`run_trading_agent_rescue` with the state current at that point. -/
def run_trading_agent (ctx : AgentCtx) (parameters : Option (List (String × Val)))
    (previous_state : Option (List (String × Val))) (thread_id : Option String) :
    Except String (List (String × Val) × List (List (String × Val))) :=
  let loadPath : Except String (List (String × Val)) := do
    let l ← ctx.load_state
    match l with
    | Option.none => .ok ctx.initial_state
    | some st => .ok (if ctx.validate st then st else ctx.migrate st)
  let stage1 : Except String (List (String × Val)) :=
    match previous_state with
    | some s => if s.isEmpty then loadPath else .ok s
    | Option.none => loadPath
  match stage1 with
  | .error e => run_trading_agent_rescue ctx ctx.initial_state e
  | .ok st1 =>
    let st2 :=
      match thread_id with
      | some t =>
          if t.isEmpty then st1
          else dset (dset st1 "thread_id" (.str t)) "session_active" (.bool true)
      | Option.none => st1
    let paramStage : Except String (List (String × Val)) :=
      match parameters with
      | some ps =>
          if ps.isEmpty then .ok st2
          else do
            let cur ← pyDictD st2 "agent_parameters" []
            let st := dset st2 "agent_parameters" (.dict (dictUpdate cur ps))
            let st :=
              match dget ps "dry_run" with
              | some dv =>
                  dset st "trading_mode"
                    (.str (if valTruthy dv then "dry_run" else "live"))
              | Option.none => st
            .ok st
      | Option.none => .ok st2
    match paramStage with
    | .error e => run_trading_agent_rescue ctx st2 e
    | .ok st3 =>
      let shelveStage : Except String (List (String × Val)) :=
        if dmem st3 "error" then do
          let prev ← pyListD st3 "previous_errors" []
          let entry := Val.dict
            [("error", dgetD st3 "error" Val.none),
             ("timestamp", dgetD st3 "error_timestamp" Val.none),
             ("resolved", .bool true)]
          let st := dset st3 "previous_errors" (.vlist (prev ++ [entry]))
          let st := derase st "error"
          .ok (derase st "error_timestamp")
        else .ok st3
      match shelveStage with
      | .error e => run_trading_agent_rescue ctx st3 e
      | .ok st4 =>
        match ctx.cycleFn st4 with
        | .error e => run_trading_agent_rescue ctx st4 e
        | .ok (updated, savesInner) =>
          let postReads : Except String Unit := do
            let _ ← pyNumD updated "wallet_balance_sol" 0
            let _ ← pyListD updated "active_positions" []
            .ok ()
          match postReads with
          | .error e => run_trading_agent_rescue ctx updated e
          | .ok _ =>
            let fin := dset updated "last_cycle_timestamp" (.str ctx.now)
            let fin := dset fin "state_healthy"
              (.bool (!(valTruthy (dgetD fin "error" Val.none))))
            .ok (fin, savesInner ++ [fin])

/-- Projection of a non-raising run onto its resulting state. -/
def okState
    (r : Except String (List (String × Val) × List (List (String × Val)))) :
    Option (List (String × Val)) :=
  match r with
  | .ok (st, _) => some st
  | .error _ => Option.none

/-- A small healthy state document one cycle has not yet run on. -/
def cexState : List (String × Val) :=
  [("cycles_completed", .num 0), ("wallet_balance_sol", .num 1),
   ("active_positions", .vlist []), ("trading_mode", .str "dry_run")]

/-- Inner-cycle collaborators whose oracle invocation always raises. -/
def cexCycleCtx : CycleCtx :=
  { update_portfolio_metrics := fun s => .ok s
    oracle := fun _ => .error "boom"
    load_state := Option.none
    initial_state := cexState
    now := "2025-01-01T00:00:00" }

/-- Outer collaborators running the inner cycle above. -/
def cexAgentCtx : AgentCtx :=
  { load_state := .ok Option.none
    initial_state := cexState
    validate := fun _ => true
    migrate := fun s => s
    cycleFn := fun s => run_trading_cycle cexCycleCtx (some s)
    now := "2025-01-01T00:00:00" }

/-- The state `run_trading_agent` returns in that run. -/
def cexFinal : List (String × Val) :=
  (okState (run_trading_agent cexAgentCtx Option.none (some cexState)
      (some "tid"))).getD []

/-- Claim C3 (counterexample): with an oracle invocation that raises, the
entry point returns a state whose cycle counter advanced and whose fault is
recorded in `error_log`, but `error`, `error_timestamp` and `error_type` are
all unset — the claim that those fields are set fails, because the inner
orchestrator boundary catches the exception first and records it only in the
`error_log` history. -/
theorem run_trading_agent_error_field_counterexample :
    (okState (run_trading_agent cexAgentCtx Option.none (some cexState)
        (some "tid"))).isSome = true
    ∧ dget cexFinal "error" = Option.none
    ∧ dget cexFinal "error_timestamp" = Option.none
    ∧ dget cexFinal "error_type" = Option.none
    ∧ dget cexFinal "cycles_completed" = some (.num 1)
    ∧ dget cexFinal "error_log" = some (.vlist [Val.dict
        [("timestamp", .str "2025-01-01T00:00:00"), ("error", .str "boom"),
         ("error_type", .str "complete_langgraph_execution")]]) := by
  refine ⟨rfl, rfl, rfl, rfl, ?_, rfl⟩
  show dget cexFinal "cycles_completed" = some (.num 1)
  norm_num [cexFinal, cexState, cexCycleCtx, cexAgentCtx, run_trading_agent,
    run_trading_cycle, run_trading_cycle_body, run_trading_cycle_rescue,
    okState, dget, dset, dmem, pyNumD, pyListD, pyStrD, sumPositions, dgetD]

/-- Claim C3 (amended): every exception raised during a cycle is caught and
never propagates, the cycle counter advances by exactly one, and the
resulting state is persisted exactly once — but the two boundaries record
the fault differently.  An exception inside the cycle body (context build,
oracle invocation, action execution) is caught at the inner orchestrator
boundary, which appends a timestamp/error/error_type entry to the state's
`error_log` history and leaves the top-level `error`, `error_timestamp` and
`error_type` fields unset.  Only an exception reaching the outer entry point
itself (here: the cycle call raising, e.g. out of persistence) sets those
top-level fields, with error_type `run_trading_agent_failure`. -/
theorem cycle_fault_containment :
    (∀ (ctx : CycleCtx) (s : List (String × Val)) (e : String) (n : ℚ),
      run_trading_cycle_body ctx s = .error e →
      s.isEmpty = false →
      dget s "cycles_completed" = some (.num n) →
      dget s "error_log" = Option.none →
      dget s "error" = Option.none →
      dget s "error_timestamp" = Option.none →
      dget s "error_type" = Option.none →
      ∃ st, run_trading_cycle ctx (some s) = .ok (st, [st])
        ∧ dget st "cycles_completed" = some (.num (n + 1))
        ∧ dget st "error_log" = some (.vlist [Val.dict
            [("timestamp", .str ctx.now), ("error", .str e),
             ("error_type", .str "complete_langgraph_execution")]])
        ∧ dget st "error" = Option.none
        ∧ dget st "error_timestamp" = Option.none
        ∧ dget st "error_type" = Option.none)
    ∧ (∀ (ctx : AgentCtx) (s : List (String × Val)) (e : String) (n : ℚ),
      s.isEmpty = false →
      dmem s "error" = false →
      ctx.cycleFn s = .error e →
      dget s "cycles_completed" = some (.num n) →
      ∃ st, run_trading_agent ctx Option.none (some s) Option.none = .ok (st, [st])
        ∧ dget st "error" = some (.str e)
        ∧ dget st "error_timestamp" = some (.str ctx.now)
        ∧ dget st "error_type" = some (.str "run_trading_agent_failure")
        ∧ dget st "cycles_completed" = some (.num (n + 1))
        ∧ dget st "state_healthy" = some (.bool false)) := by
  constructor
  · intro ctx s e n hbody hne hc hlog herr hets hety
    refine ⟨dset (dset (dset s "cycles_completed" (.num (n + 1))) "error_log"
        (.vlist [Val.dict [("timestamp", .str ctx.now), ("error", .str e),
           ("error_type", .str "complete_langgraph_execution")]]))
        "agent_reasoning" (.str ("Complete LangGraph execution error: " ++ e)),
      ?_, ?_, ?_, ?_, ?_, ?_⟩
    · simp only [run_trading_cycle, hbody, run_trading_cycle_rescue, hne,
        Bool.false_eq_true, if_false, pyNumD, hc, pyListD]
      rw [dget_dset_ne _ _ _ _ (by decide), hlog]
      simp
    · rw [dget_dset_ne _ _ _ _ (by decide), dget_dset_ne _ _ _ _ (by decide),
        dget_dset_self]
    · rw [dget_dset_ne _ _ _ _ (by decide), dget_dset_self]
    · rw [dget_dset_ne _ _ _ _ (by decide), dget_dset_ne _ _ _ _ (by decide),
        dget_dset_ne _ _ _ _ (by decide)]
      exact herr
    · rw [dget_dset_ne _ _ _ _ (by decide), dget_dset_ne _ _ _ _ (by decide),
        dget_dset_ne _ _ _ _ (by decide)]
      exact hets
    · rw [dget_dset_ne _ _ _ _ (by decide), dget_dset_ne _ _ _ _ (by decide),
        dget_dset_ne _ _ _ _ (by decide)]
      exact hety
  · intro ctx s e n hne herr hcf hc
    refine ⟨dset (dset (dset (dset (dset s "error" (.str e)) "error_timestamp"
        (.str ctx.now)) "error_type" (.str "run_trading_agent_failure"))
        "cycles_completed" (.num (n + 1))) "state_healthy" (.bool false),
      ?_, ?_, ?_, ?_, ?_, ?_⟩
    · simp only [run_trading_agent, hne, Bool.false_eq_true, if_false, herr,
        hcf, run_trading_agent_rescue, pyNumD]
      rw [dget_dset_ne _ _ _ _ (by decide), dget_dset_ne _ _ _ _ (by decide),
        dget_dset_ne _ _ _ _ (by decide), hc]
    · rw [dget_dset_ne _ _ _ _ (by decide), dget_dset_ne _ _ _ _ (by decide),
        dget_dset_ne _ _ _ _ (by decide), dget_dset_ne _ _ _ _ (by decide),
        dget_dset_self]
    · rw [dget_dset_ne _ _ _ _ (by decide), dget_dset_ne _ _ _ _ (by decide),
        dget_dset_ne _ _ _ _ (by decide), dget_dset_self]
    · rw [dget_dset_ne _ _ _ _ (by decide), dget_dset_ne _ _ _ _ (by decide),
        dget_dset_self]
    · rw [dget_dset_ne _ _ _ _ (by decide), dget_dset_self]
    · rw [dget_dset_self]

/-- Outer collaborators whose cycle call itself raises. -/
def failAgentCtx : AgentCtx :=
  { load_state := .ok Option.none
    initial_state := cexState
    validate := fun _ => true
    migrate := fun s => s
    cycleFn := fun _ => .error "disk full"
    now := "2025-01-02T00:00:00" }

theorem cycle_fault_containment_witness :
    (run_trading_cycle_body cexCycleCtx cexState = .error "boom"
      ∧ (∃ st, run_trading_cycle cexCycleCtx (some cexState) = .ok (st, [st])
          ∧ dget st "cycles_completed" = some (.num (0 + 1))
          ∧ dget st "error_log" = some (.vlist [Val.dict
              [("timestamp", .str cexCycleCtx.now), ("error", .str "boom"),
               ("error_type", .str "complete_langgraph_execution")]])
          ∧ dget st "error" = Option.none
          ∧ dget st "error_timestamp" = Option.none
          ∧ dget st "error_type" = Option.none))
    ∧ (failAgentCtx.cycleFn cexState = .error "disk full"
      ∧ (∃ st, run_trading_agent failAgentCtx Option.none (some cexState) Option.none
            = .ok (st, [st])
          ∧ dget st "error" = some (.str "disk full")
          ∧ dget st "error_timestamp" = some (.str failAgentCtx.now)
          ∧ dget st "error_type" = some (.str "run_trading_agent_failure")
          ∧ dget st "cycles_completed" = some (.num (0 + 1))
          ∧ dget st "state_healthy" = some (.bool false))) :=
  ⟨⟨rfl, cycle_fault_containment.1 cexCycleCtx cexState "boom" 0 rfl rfl rfl rfl rfl rfl rfl⟩,
   ⟨rfl, cycle_fault_containment.2 failAgentCtx cexState "disk full" 0 rfl rfl rfl rfl⟩⟩

end TradingBot
